import Mathlib

/-!
Verification development for `danger.c` (Prototype 2 of the file-shredder
repository): a free-space wiper that fills a filesystem with temporary
pattern files and deletes them.

The C code is shallowly embedded below.  Machine integers are modelled as
`Nat`/`Int`; the byte stream produced by the libc `rand()` generator is
modelled as an abstract stream `rnd : Nat → Nat` of draw results (the code
takes `rand() % 256` etc.); the results of the fallible system calls
(`statvfs`, `open`, `malloc`, `write`, `remove`) are supplied by an
environment record, one per (pass, pattern) iteration.
-/

namespace Danger

/-- List of text patterns, `danger.c:44`:
`const char *patterns[] = {"zeros", "ones", "random", "encrypted"};` -/
def patterns : List String := ["zeros", "ones", "random", "encrypted"]

/-- A run of bytes drawn from the `rand()` stream starting at draw index `k`:
models `for (i = 0; i < cs; i++) buf[i] = rand() % 256;` (`danger.c:74` and
`danger.c:76`). -/
def randBytes (rnd : Nat → Nat) (k cs : Nat) : List Nat :=
  (List.range cs).map fun i => rnd (k + i) % 256

/-- Modelled from the spec: the ciphertext length produced by a successful
AES-256-CBC encryption with PKCS-style padding of a `len`-byte plaintext
(OpenSSL `EVP_aes_256_cbc` with default padding is external to the
repository; the spec says the ciphertext "may be slightly longer than
plaintext due to padding" and prescribes a scratch buffer of
`chunk_size + cipher block size`, the cipher block size being 16). The
padded length rounds `len` up to the next multiple of the 16-byte block:
`len - len % 16 + 16`. -/
def aesCbcCtLen (len : Nat) : Nat := len - len % 16 + 16

/-- Return value of `encrypt_chunk` (`danger.c:16-28`): `-1` when the cipher
context allocation, init, update or finalization fails (`ok = false`),
otherwise `outlen1 + outlen2`, the padded ciphertext length. -/
def encrypt_chunk (ok : Bool) (len : Nat) : Int :=
  if ok then (aesCbcCtLen len : Int) else -1

/-- Number of ciphertext bytes the encrypted-pattern branch copies back into
the `chunk_size`-byte fill buffer, `danger.c:80-81`:
`int enc_size = encrypt_chunk(buf, chunk_size, outbuf, key, iv);`
`if (enc_size > 0) memcpy(buf, outbuf, enc_size);`
When `enc_size` is not positive the copy is skipped (0 bytes copied). -/
def encCopyBytes (ok : Bool) (chunk_size : Nat) : Nat :=
  let enc_size := encrypt_chunk ok chunk_size
  if 0 < enc_size then enc_size.toNat else 0

/-- One buffer fill of the write loop, `danger.c:69-82`, dispatching on the
pattern name exactly as the `strcmp` chain does.  `E` is the (external)
cipher as a plaintext-to-ciphertext map, `none` meaning `encrypt_chunk`
failed; `rnd` is the `rand()` stream and `k` the index of the next draw
(the encrypted branch consumes `cs` draws for the plaintext plus 32 for the
key and 16 for the IV, `danger.c:76-79`).  Returns the buffer contents
after the fill together with the next draw index.  In the encrypted branch
the successful `memcpy` copies `enc_size > cs` bytes into the `cs`-byte
buffer; the model keeps the `cs` bytes that land inside the allocation
(the excess is an out-of-bounds write, see `c1_encrypted_copy_overflow`).
An unrecognized pattern name falls through every branch and leaves the
buffer unchanged. -/
def fillBuf (E : List Nat → Option (List Nat)) (patName : String) (cs : Nat)
    (buf : List Nat) (rnd : Nat → Nat) (k : Nat) : List Nat × Nat :=
  if patName = "zeros" then (List.replicate cs 0x00, k)
  else if patName = "ones" then (List.replicate cs 0xFF, k)
  else if patName = "random" then (randBytes rnd k cs, k + cs)
  else if patName = "encrypted" then
    let pt := randBytes rnd k cs
    let k2 := k + cs + 32 + 16
    match E pt with
    | some ct => (ct.take cs, k2)
    | none => (pt, k2)
  else (buf, k)

/-- The inner write loop, `danger.c:67-89`, abstracted over the sequence of
`write()` return values for the iteration: the loop body generates a chunk
and calls `write(fd, buf, chunk_size)`; on a result `w <= 0` it breaks,
otherwise it adds `w` to `written` and loops.  The list holds the
successive `write()` results; once it is exhausted further calls return 0
(so the loop always terminates, as the filesystem eventually fills).
Returns `(written, number of successful write calls)`. -/
def runWrites : List Int → Nat × Nat
  | [] => (0, 0)
  | w :: ws =>
    if w ≤ 0 then (0, 0)
    else (w.toNat + (runWrites ws).1, (runWrites ws).2 + 1)

/-- The write loop specialized to the encrypted pattern, `danger.c:75-89`:
each loop iteration records whether that chunk's `encrypt_chunk` succeeded
(`danger.c:80`) together with the `write()` result.  The code guards only
the `memcpy` with `enc_size > 0` and then calls `write` unconditionally
(`danger.c:84`).  Returns the total bytes written and, for each chunk that
a successful write put in the file, whether its encryption had
succeeded. -/
def runEncWrites : List (Bool × Int) → Nat × List Bool
  | [] => (0, [])
  | c :: rest =>
    if c.2 ≤ 0 then (0, [])
    else (c.2.toNat + (runEncWrites rest).1, c.1 :: (runEncWrites rest).2)

/-- Per-iteration environment: the outcomes the operating system hands one
(pass, pattern) iteration of `wipe_free_space` — whether `open` succeeds
(`danger.c:51`), whether the two `malloc`s succeed (`danger.c:57-58`),
the successive `write()` results, and whether `remove` succeeds
(`danger.c:98`). -/
structure IterEnv where
  openOk : Bool
  bufOk : Bool
  outbufOk : Bool
  writes : List Int
  removeOk : Bool

/-- Observable outcome of one (pass, pattern) iteration of
`wipe_free_space` (`danger.c:46-102`). -/
structure IterOutcome where
  fileCreated : Bool
  written : Nat
  succWrites : Nat
  writeCalls : Nat
  removeAttempted : Bool
  fileExistsAtEnd : Bool

/-- One (pass, pattern) iteration, `danger.c:46-102`:
if `open` fails the code logs and `continue`s (nothing was created,
`danger.c:52-55`); if either `malloc` fails it closes the fd, frees and
`continue`s — without removing the file it just created
(`danger.c:59-65`); otherwise it runs the write loop, closes, frees, and
calls `remove(filename)` (`danger.c:93-102`). -/
def runIter (e : IterEnv) : IterOutcome :=
  if e.openOk = false then
    ⟨false, 0, 0, 0, false, false⟩
  else if e.bufOk = false || e.outbufOk = false then
    ⟨true, 0, 0, 0, false, true⟩
  else
    ⟨true, (runWrites e.writes).1, (runWrites e.writes).2,
      (runWrites e.writes).2 + 1, true, !e.removeOk⟩

/-- The body of `wipe_free_space` (`danger.c:31-107`): `sv` is the
`statvfs` result (`none` = the call failed, `some free` = reported free
bytes `f_bsize * f_bavail`, used only for logging).  On `statvfs` failure
the function logs and returns at once (`danger.c:33-36`).  Otherwise it
runs `passes × 4` iterations, pass-major, pattern-minor (`danger.c:41-45`;
`passes` is a C `int`, and a non-positive value yields zero loop
iterations).  Returns the trace of iterations as
`(pass index, pattern index, outcome)` triples. -/
def wipeRun (sv : Option Nat) (passes : Int)
    (env : Nat → Nat → IterEnv) : List (Nat × Nat × IterOutcome) :=
  match sv with
  | none => []
  | some _free =>
    (List.range passes.toNat).flatMap fun p =>
      (List.range 4).map fun pat => (p, pat, runIter (env p pat))

/-- Flags passed to `open` at `danger.c:51`:
`open(filename, O_CREAT | O_WRONLY | O_TRUNC, 0600)`. -/
inductive OpenFlag where
  | O_RDONLY
  | O_WRONLY
  | O_RDWR
  | O_CREAT
  | O_TRUNC
  | O_EXCL
deriving DecidableEq

/-- The flag set the code passes to `open`, `danger.c:51`. -/
def openFlags : List OpenFlag := [OpenFlag.O_CREAT, OpenFlag.O_WRONLY, OpenFlag.O_TRUNC]

/-- The permission mode passed to `open`, `danger.c:51` (octal 0600). -/
def openMode : Nat := 0o600

/-- The temp-file path built at `danger.c:46-47`:
`snprintf(filename, sizeof(filename), "%s/shred_temp_%d_%d.dat", path, p, pat)`
into a 256-byte array, so the result is truncated to 255 characters. -/
def tempFilenameChars (path : String) (p pat : Nat) : List Char :=
  (path ++ "/shred_temp_" ++ toString p ++ "_" ++ toString pat ++ ".dat").toList.take 255

/-- The temp-file path as a string, `danger.c:47`. -/
def tempFilename (path : String) (p pat : Nat) : String :=
  String.mk (tempFilenameChars path p pat)

/-- Digit-accumulation loop of the C library `atoi`: consume leading decimal
digits, stop at the first non-digit. -/
def atoiLoop : List Char → Nat → Nat
  | [], acc => acc
  | c :: cs, acc =>
    if c.isDigit then atoiLoop cs (acc * 10 + (c.toNat - 48)) else acc

/-- The C library `atoi` as called at `danger.c:119` (libc is external to
the repository): skip leading whitespace, honour an optional sign, read
leading decimal digits; a string with no leading digits converts to 0.
Overflow is undefined behaviour in C and left unbounded here. -/
def atoi (s : String) : Int :=
  let t := s.toList.dropWhile fun c =>
    c = ' ' || c.toNat = 9 || c.toNat = 10 || c.toNat = 11 || c.toNat = 12 || c.toNat = 13
  match t with
  | '-' :: cs => - (atoiLoop cs 0 : Int)
  | '+' :: cs => (atoiLoop cs 0 : Int)
  | cs => (atoiLoop cs 0 : Int)

/-- Observable outcome of `main` (`danger.c:110-125`). -/
structure MainResult where
  exitCode : Nat
  passes : Int
  wipeCalled : Bool
  iterations : Nat
  writeCalls : Nat

/-- The `chunk_size` fixed by `main`, `danger.c:120`: 512 MiB. -/
def mainChunkSize : Nat := 512 * 1024 * 1024

/-- The body of `main` (`danger.c:110-125`): with fewer than two arguments
it prints usage and returns 1; otherwise `passes` is `atoi(argv[2])` when
given, else 3, and `wipe_free_space(path, passes, chunk_size)` runs.  The
process then returns 0 unconditionally.  `sv` and `env` feed `wipeRun` as
above; `writeCalls` counts every `write()` call made during the run. -/
def mainRun (argv : List String) (sv : Option Nat)
    (env : Nat → Nat → IterEnv) : MainResult :=
  match argv with
  | _prog :: _path :: rest =>
    let passes : Int :=
      match rest with
      | [] => 3
      | a :: _ => atoi a
    let trace := wipeRun sv passes env
    ⟨0, passes, true, trace.length, (trace.map fun t => t.2.2.writeCalls).sum⟩
  | _ => ⟨1, 0, false, 0, 0⟩

/-- A cipher stand-in used only to instantiate witnesses. -/
def E0 : List Nat → Option (List Nat) := fun _ => none

/-- A rand-stream stand-in used only to instantiate witnesses. -/
def r0 : Nat → Nat := fun _ => 0

/-- An environment in which every system call succeeds and the very first
write reports exhaustion. -/
def cEnv : Nat → Nat → IterEnv := fun _ _ => ⟨true, true, true, [], true⟩

/-- An iteration environment whose first `malloc` fails. -/
def eAllocFail : IterEnv := ⟨true, false, true, [], true⟩

/-- An iteration environment in which everything succeeds. -/
def eAllOk : IterEnv := ⟨true, true, true, [], true⟩

/-! Helper lemmas. -/

/-- Reading inside a replicated list yields the replicated element. -/
theorem getD_replicate_of_lt (n i b d : Nat) (h : i < n) :
    (List.replicate n b).getD i d = b := by
  induction n generalizing i with
  | zero => omega
  | succ m ih =>
    cases i with
    | zero => simp [List.replicate_succ]
    | succ j =>
      simp only [List.replicate_succ, List.getD_cons_succ]
      exact ih j (by omega)

/-! Claim theorems. -/

/-- C1: the claim says the ciphertext copy-back stays within the
`chunk_size`-byte buffer; in the code a successful encryption of a full
`chunk_size` chunk produces `enc_size = chunk_size + 16 - chunk_size % 16`
bytes and `memcpy(buf, outbuf, enc_size)` copies all of them into `buf`,
overflowing the `malloc(chunk_size)` allocation.  At `main`'s chunk size of
512 MiB the copy is 16 bytes past the end; in general it always exceeds
`chunk_size`. -/
theorem c1_encrypted_copy_overflow :
    (∀ cs : Nat, cs < encCopyBytes true cs) ∧
      encCopyBytes true (512 * 1024 * 1024) = 512 * 1024 * 1024 + 16 := by
  constructor
  · intro cs
    simp only [encCopyBytes, encrypt_chunk, if_pos, aesCbcCtLen]
    have h1 : cs % 16 < 16 := Nat.mod_lt _ (by omega)
    have h2 : cs % 16 ≤ cs := Nat.mod_le _ _
    rw [if_pos (by omega)]
    omega
  · rfl

/-- C2 counterexample: the claim says a failed free-space probe is logged
and the run continues, still attempting all passes and patterns; in the
code `statvfs` failure makes `wipe_free_space` return at once, so a
one-pass run attempts 0 fill iterations instead of 4. -/
theorem c2_probe_fail_cex :
    (wipeRun none 1 cEnv).length ≠ 1 * 4 := by decide

/-- C2 amended: if the free-space probe fails, the error is logged and
`wipe_free_space` returns immediately — no fill iteration of any pass or
pattern is attempted; the probe error aborts the whole wipe. -/
theorem c2_probe_fail_aborts (passes : Int) (env : Nat → Nat → IterEnv) :
    wipeRun none passes env = [] := rfl

/-- C3: for every pass count `P ≥ 0` (the C `int` cast from `P : Nat`), a
run whose free-space probe succeeds attempts exactly `P × 4` fill
iterations, one per (pass, pattern) pair over the four patterns in order:
the trace's (pass, pattern) projection enumerates
`(0,0), (0,1), (0,2), (0,3), (1,0), …` pass-major. -/
theorem c3_iteration_count (P free : Nat) (env : Nat → Nat → IterEnv) :
    (wipeRun (some free) (P : Int) env).length = P * 4 ∧
      (wipeRun (some free) (P : Int) env).map (fun t => (t.1, t.2.1)) =
        (List.range P).flatMap fun p => (List.range 4).map fun pat => (p, pat) := by
  constructor
  · simp [wipeRun, List.length_flatMap, Function.comp_def, List.map_const',
      List.sum_replicate, smul_eq_mul, Nat.mul_comm]
  · simp [wipeRun, List.map_flatMap, List.map_map, Function.comp_def]

/-- C4 counterexample: the claim says a non-numeric pass-count argument is
rejected with a failure exit indicator; in the code `atoi("abc")` is 0, the
run is not rejected — `wipe_free_space` is called and the process exits
with 0 (success), merely performing zero passes. -/
theorem c4_nonnumeric_cex :
    (mainRun ["shred", "/mnt/usb", "abc"] (some 1000) cEnv).exitCode = 0 ∧
      (mainRun ["shred", "/mnt/usb", "abc"] (some 1000) cEnv).wipeCalled = true ∧
      (mainRun ["shred", "/mnt/usb", "abc"] (some 1000) cEnv).passes = 0 := by
  decide

/-- C4 amended: a pass-count argument that `atoi` converts to 0 (in
particular any non-numeric string) is not rejected: the run proceeds and
exits successfully (exit code 0), but with 0 passes it attempts no fill
iterations and therefore no filesystem writes. -/
theorem c4_nonnumeric_no_writes (prog path a : String) (sv : Option Nat)
    (env : Nat → Nat → IterEnv) (h : atoi a = 0) :
    (mainRun [prog, path, a] sv env).exitCode = 0 ∧
      (mainRun [prog, path, a] sv env).iterations = 0 ∧
      (mainRun [prog, path, a] sv env).writeCalls = 0 := by
  cases sv with
  | none => simp [mainRun, h, wipeRun]
  | some free => simp [mainRun, h, wipeRun]

/-- C4 witness: the amended theorem applied to the non-numeric argument
"abc". -/
theorem c4_nonnumeric_witness :
    atoi "abc" = 0 ∧
      ((mainRun ["shred", "/mnt", "abc"] (some 5) cEnv).exitCode = 0 ∧
        (mainRun ["shred", "/mnt", "abc"] (some 5) cEnv).iterations = 0 ∧
        (mainRun ["shred", "/mnt", "abc"] (some 5) cEnv).writeCalls = 0) :=
  ⟨by decide, c4_nonnumeric_no_writes "shred" "/mnt" "abc" (some 5) cEnv (by decide)⟩

/-- C5 counterexample: the claim says a chunk whose cipher operation failed
is not written to the temp file; in the code only the `memcpy` is guarded
by `enc_size > 0` and `write` is called unconditionally, so a chunk with a
failed encryption (flag `false`) and a successful 8-byte write is recorded
in the file: 8 bytes written, and the written-chunk list is `[false]`. -/
theorem c5_enc_fail_still_written_cex :
    (runEncWrites [(false, 8)]).1 = 8 ∧ (runEncWrites [(false, 8)]).2 = [false] := by
  decide

/-- C5 amended: a cipher failure only skips the ciphertext copy-back — the
buffer (still holding the random plaintext) is written to the temp file
anyway, and the loop continues; the chunks that land in the file are
exactly the maximal prefix of positive-result writes, with their
encryption-success flags as given (a failed flag never removes a chunk or
stops the loop), and the bytes written are the sum of that prefix's write
results. -/
theorem c5_enc_fail_skips_only_memcpy (l : List (Bool × Int)) :
    (runEncWrites l).2 = (l.takeWhile fun c => decide (0 < c.2)).map Prod.fst ∧
      (runEncWrites l).1 =
        ((l.takeWhile fun c => decide (0 < c.2)).map fun c => c.2.toNat).sum := by
  induction l with
  | nil => simp [runEncWrites]
  | cons c rest ih =>
    by_cases hw : c.2 ≤ 0
    · have : ¬(0 < c.2) := by omega
      simp [runEncWrites, List.takeWhile_cons, hw, this]
    · have : 0 < c.2 := by omega
      simp [runEncWrites, List.takeWhile_cons, hw, this, ih.1, ih.2]

/-- C6 counterexample: the claim says every iteration that created its temp
file deletes it by the end of the iteration (modulo a deletion failure); in
the code the buffer-allocation failure path closes the fd and `continue`s
without calling `remove`, so with `open` succeeding, the first `malloc`
failing and `remove` able to succeed, the created file still exists at the
end of the iteration and no removal was even attempted. -/
theorem c6_alloc_fail_leaves_file_cex :
    (runIter eAllocFail).fileCreated = true ∧
      (runIter eAllocFail).removeAttempted = false ∧
      (runIter eAllocFail).fileExistsAtEnd = true := by
  decide

/-- C6 amended: in every iteration in which the temp file was created and
both buffer allocations succeeded, the file is closed and its removal is
attempted at the end of the iteration regardless of how the write loop
terminated, and it no longer exists exactly when `remove` succeeded; but
if an allocation fails, the created file is closed and left on disk. -/
theorem c6_cleanup_after_loop (e : IterEnv) (h1 : e.openOk = true)
    (h2 : e.bufOk = true) (h3 : e.outbufOk = true) :
    (runIter e).removeAttempted = true ∧
      (runIter e).fileExistsAtEnd = !e.removeOk := by
  simp [runIter, h1, h2, h3]

/-- C6 witness: the amended theorem applied to the all-successful
environment. -/
theorem c6_cleanup_witness :
    eAllOk.openOk = true ∧
      ((runIter eAllOk).removeAttempted = true ∧
        (runIter eAllOk).fileExistsAtEnd = !eAllOk.removeOk) :=
  ⟨rfl, c6_cleanup_after_loop eAllOk rfl rfl rfl⟩

/-- C7: every byte of a buffer generated under the zeros pattern is 0x00,
and every byte of a buffer generated under the ones pattern is 0xFF
(`danger.c:69-72`, the two `memset` branches). -/
theorem c7_zeros_ones_bytes (E : List Nat → Option (List Nat)) (cs : Nat)
    (buf : List Nat) (rnd : Nat → Nat) (k i : Nat) (h : i < cs) :
    (fillBuf E "zeros" cs buf rnd k).1.getD i 1 = 0x00 ∧
      (fillBuf E "ones" cs buf rnd k).1.getD i 0 = 0xFF := by
  constructor
  · show (List.replicate cs 0x00).getD i 1 = 0x00
    exact getD_replicate_of_lt cs i 0x00 1 h
  · show (List.replicate cs 0xFF).getD i 0 = 0xFF
    exact getD_replicate_of_lt cs i 0xFF 0 h

/-- C7 witness: the theorem applied to 2-byte buffers at index 0. -/
theorem c7_zeros_ones_witness :
    0 < 2 ∧
      ((fillBuf E0 "zeros" 2 [] r0 0).1.getD 0 1 = 0x00 ∧
        (fillBuf E0 "ones" 2 [] r0 0).1.getD 0 0 = 0xFF) :=
  ⟨by decide, c7_zeros_ones_bytes E0 2 [] r0 0 0 (by decide)⟩

/-- C8: with the write primitive succeeding with a full `chunk_size` result
exactly `K` times and then returning a zero or negative value, the
iteration records exactly `K × chunk_size` bytes written and terminates the
write loop on the failed write (whatever results might have followed are
never consulted); the loop just breaks — exhaustion raises no error. -/
theorem c8_exhaustion_terminates (K cs : Nat) (z : Int) (junk : List Int)
    (hcs : 0 < cs) (hz : z ≤ 0) :
    runWrites (List.replicate K ((cs : Nat) : Int) ++ z :: junk) = (K * cs, K) := by
  induction K with
  | zero => simp [runWrites, hz]
  | succ n ih =>
    have hpos : ¬(((cs : Nat) : Int) ≤ 0) := by
      simp only [not_le]
      exact_mod_cast hcs
    simp only [List.replicate_succ, List.cons_append, runWrites, if_neg hpos,
      List.append_eq, ih, Int.toNat_ofNat]
    rw [Prod.mk.injEq]
    exact ⟨by ring, rfl⟩

/-- C8 witness: two full 3-byte writes followed by a zero result record
exactly 6 bytes over 2 successful writes, ignoring the trailing result. -/
theorem c8_exhaustion_witness :
    0 < 3 ∧ (0 : Int) ≤ 0 ∧
      runWrites (List.replicate 2 ((3 : Nat) : Int) ++ (0 : Int) :: [-1]) = (2 * 3, 2) :=
  ⟨by decide, by decide, c8_exhaustion_terminates 2 3 0 [-1] (by decide) (by decide)⟩

/-- C9 counterexample: the claim says the temp file is opened in an
exclusive/truncate/write-only mode; the code passes
`O_CREAT | O_WRONLY | O_TRUNC` — `O_EXCL` is not among the flags — while
the path itself is exactly `<target>/shred_temp_<p>_<pat>.dat`. -/
theorem c9_no_excl_cex :
    OpenFlag.O_EXCL ∉ openFlags ∧
      tempFilename "/mnt/usb" 2 3 = "/mnt/usb/shred_temp_2_3.dat" := by
  decide

/-- C9 amended: the temp file of pass `p` and pattern index `pat` is created
at exactly `<target>/shred_temp_<p>_<pat>.dat` (as long as that path fits
`snprintf`'s 256-byte buffer), with flags `O_CREAT | O_WRONLY | O_TRUNC`
and mode 0600 — create/truncate/write-only, but not exclusive: `O_EXCL` is
absent, collision avoidance relying only on the deterministic name. -/
theorem c9_temp_path_and_flags (path : String) (p pat : Nat)
    (h : (path ++ "/shred_temp_" ++ toString p ++ "_" ++ toString pat ++ ".dat").toList.length ≤ 255) :
    tempFilename path p pat =
        path ++ "/shred_temp_" ++ toString p ++ "_" ++ toString pat ++ ".dat" ∧
      openFlags = [OpenFlag.O_CREAT, OpenFlag.O_WRONLY, OpenFlag.O_TRUNC] ∧
      OpenFlag.O_EXCL ∉ openFlags ∧ openMode = 0o600 := by
  refine ⟨?_, rfl, by decide, rfl⟩
  unfold tempFilename tempFilenameChars
  rw [List.take_of_length_le h]
  rfl

/-- C9 witness: the amended theorem applied to target "/mnt/usb", pass 2,
pattern 3. -/
theorem c9_temp_path_witness :
    ("/mnt/usb" ++ "/shred_temp_" ++ toString 2 ++ "_" ++ toString 3 ++ ".dat").toList.length ≤ 255 ∧
      (tempFilename "/mnt/usb" 2 3 =
          "/mnt/usb" ++ "/shred_temp_" ++ toString 2 ++ "_" ++ toString 3 ++ ".dat" ∧
        openFlags = [OpenFlag.O_CREAT, OpenFlag.O_WRONLY, OpenFlag.O_TRUNC] ∧
        OpenFlag.O_EXCL ∉ openFlags ∧ openMode = 0o600) :=
  ⟨by decide, c9_temp_path_and_flags "/mnt/usb" 2 3 (by decide)⟩

/-- C10: a partially successful write — returning `w` bytes with
`0 < w < chunk_size` — does not terminate the write loop: the actual
returned count `w` is added to the running total, the successful-write
count increases by one, and the loop goes on to process the remaining
write results (so the recorded total need not be a multiple of
`chunk_size`). -/
theorem c10_partial_write_continues (cs : Nat) (w : Int) (rest : List Int)
    (h1 : 0 < w) (_h2 : w < (cs : Int)) :
    runWrites (w :: rest) =
      (w.toNat + (runWrites rest).1, (runWrites rest).2 + 1) := by
  simp [runWrites, not_le.mpr h1]

/-- C10 witness: with chunk size 8, a 3-byte partial write followed by a
failing write yields a total of 3 bytes — not a multiple of 8 — over one
successful write. -/
theorem c10_partial_write_witness :
    (0 : Int) < 3 ∧ (3 : Int) < ((8 : Nat) : Int) ∧
      runWrites [3, 0] = ((3 : Int).toNat + (runWrites [0]).1, (runWrites [0]).2 + 1) :=
  ⟨by decide, by decide, c10_partial_write_continues 8 3 [0] (by decide) (by decide)⟩

end Danger
